import Mathlib

/-!
Verification of the weather-cli program (src/main.go) against its
natural-language specification.  The Go program is shallowly embedded:
its structs become Lean structures (float64 as Rat, int64 as Int),
its rendering function becomes a pure function producing the list of
printed lines, and the process-exit behaviour at each failure site
becomes an explicit exit-code map.
-/

/-- Go struct coordinate: a latitude/longitude pair (float64 fields). -/
structure coordinate where
  lat : Rat
  lon : Rat
deriving DecidableEq

/-- Go struct location: one matching location in a search result. -/
structure location where
  coord : coordinate
  name : String
  fullName : String
  compactName : String
  country : String
deriving DecidableEq

/-- Go struct locationSearchResult: schema of a location-search response. -/
structure locationSearchResult where
  message : String
  cod : String
  count : Int
  lists : List location
deriving DecidableEq

/-- Go struct weatherCondition. -/
structure weatherCondition where
  id : Int
  main : String
  description : String
  icon : String
deriving DecidableEq

/-- Go struct forecast (sub-daily point nested in dailyForecast). -/
structure forecast where
  dt : Int
  temp : Rat
  precipitation : Rat
deriving DecidableEq

/-- Go struct rainInfo. -/
structure rainInfo where
  oneH : Rat
deriving DecidableEq

/-- Go struct currentWeather. -/
structure currentWeather where
  dt : Int
  sunrise : Int
  sunset : Int
  temp : Rat
  feelsLike : Rat
  pressure : Int
  humidity : Int
  dewPoint : Rat
  uvi : Rat
  clouds : Int
  visibility : Int
  windSpeed : Rat
  windDeg : Int
  windGust : Rat
  weather : List weatherCondition
deriving DecidableEq

/-- Go struct minutelyForecast. -/
structure minutelyForecast where
  dt : Int
  precipitation : Rat
deriving DecidableEq

/-- Go struct hourlyForecast. -/
structure hourlyForecast where
  dt : Int
  temp : Rat
  feelsLike : Rat
  pressure : Int
  humidity : Int
  dewPoint : Rat
  uvi : Rat
  clouds : Int
  visibility : Int
  windSpeed : Rat
  windDeg : Int
  windGust : Rat
  weather : List weatherCondition
  pop : Rat
  rain : Option rainInfo
deriving DecidableEq

/-- Go struct dailyForecast. -/
structure dailyForecast where
  dt : Int
  sunrise : Int
  sunset : Int
  tempMax : Rat
  tempMin : Rat
  pressure : Int
  humidity : Int
  windSpeed : Rat
  windDeg : Int
  windGust : Rat
  weather : List weatherCondition
  clouds : Int
  precipitation : Rat
  pop : Rat
  uvi : Rat
  forecast : List forecast
deriving DecidableEq

/-- Go struct weatherData: the decoded weather snapshot. -/
structure weatherData where
  lat : Rat
  lon : Rat
  timezone : String
  timezoneOffset : Rat
  current : currentWeather
  minutely : List minutelyForecast
  hourly : List hourlyForecast
  daily : List dailyForecast
deriving DecidableEq

/-- Go struct IPInfo: the decoded IP-geolocation response. -/
structure IPInfo where
  ip : String
  country : String
  countryCode : String
  region : String
  zipCode : String
  city : String
  stateCode : String
  longitude : Rat
  latitude : Rat
  isp : String
  ispAsn : Int
  gdpr : Bool
  protectedFlag : Bool
deriving DecidableEq

/-- The Go map literal weatherIconEmojis (src/main.go lines 153-172),
entry for entry in source order. -/
def weatherIconEmojis : List (String × String) :=
  [ (("01d"), ("☀️")),
    (("01n"), ("🌙")),
    (("02d"), ("🌤️")),
    (("02n"), ("🌥️")),
    (("03d"), ("🌥️")),
    (("03n"), ("☁️")),
    (("04d"), ("☁️")),
    (("04n"), ("☁️")),
    (("09d"), ("🌦️")),
    (("09n"), ("🌧️")),
    (("10d"), ("🌦️")),
    (("10n"), ("🌧️")),
    (("11d"), ("⛈️")),
    (("11n"), ("⛈️")),
    (("13d"), ("🌨️")),
    (("13n"), ("🌨️")),
    (("50d"), ("🌫️")),
    (("50n"), ("🌫️")) ]

/-- Go map indexing weatherIconEmojis[code]: a missing key yields the zero
value, the empty string. -/
def iconLookup (code : String) : String :=
  (List.lookup code weatherIconEmojis).getD ("")

/-- Boolean string-prefix test over the character lists (used to state
which printed lines are Wind Gust lines). -/
def strHasPfx (p s : String) : Bool := List.isPrefixOf p.data s.data

/-- Left-pad a string with zeros to the given width. -/
def padLeft0 (s : String) (n : Nat) : String :=
  if s.length ≥ n then s else String.mk (List.replicate (n - s.length) ('0')) ++ s

/-- Two-digit zero padding, as in the Go time layouts 04 and 05. -/
def pad2 (n : Nat) : String := padLeft0 (toString n) 2

/-- Powers of ten. -/
def pow10 : Nat → Nat
  | 0 => 1
  | n + 1 => 10 * pow10 n

/-- Decimal fixed-point formatting of a rational, matching Go fmt %.{prec}f
(round half away from zero; exact at every value the program prints in the
verified scenarios). -/
def formatFixed (prec : Nat) (q : Rat) : String :=
  let neg := q.num < 0
  let nn : Int := if neg then -q.num else q.num
  let p : Int := (pow10 prec : Nat)
  let scaled : Nat := (Int.fdiv (nn * p * 2 + (q.den : Int)) (2 * (q.den : Int))).toNat
  let ip := scaled / pow10 prec
  let fp := scaled % pow10 prec
  (if neg then "-" else "") ++ (toString ip ++ ("." ++ padLeft0 (toString fp) prec))

/-- Go conversion int(f) of a float64: truncation toward zero. -/
def ratTrunc (q : Rat) : Int :=
  if q.num < 0 then -(Int.fdiv (-q.num) (q.den : Int)) else Int.fdiv q.num (q.den : Int)

/-- Days since the Unix epoch of a Unix-seconds timestamp (floor division). -/
def daysFromEpoch (t : Int) : Int := Int.fdiv t 86400

/-- Seconds past midnight of a Unix-seconds timestamp. -/
def secsOfDay (t : Int) : Nat := (Int.fmod t 86400).toNat

/-- Proleptic Gregorian civil date (year, month, day) from days since the
Unix epoch (standard days-to-civil algorithm). -/
def civilFromDays (z0 : Int) : Int × Nat × Nat :=
  let z := z0 + 719468
  let era : Int := Int.fdiv z 146097
  let doe : Nat := (z - era * 146097).toNat
  let yoe : Nat := (doe - doe / 1460 + doe / 36524 - doe / 146096) / 365
  let doy : Nat := doe - (365 * yoe + yoe / 4 - yoe / 100)
  let mp : Nat := (5 * doy + 2) / 153
  let d : Nat := doy - (153 * mp + 2) / 5 + 1
  let m : Nat := if mp < 10 then mp + 3 else mp - 9
  (era * 400 + yoe + (if m ≤ 2 then 1 else 0), m, d)

/-- The Go time layout 15:04:05 applied to a timestamp already shifted into
the display zone. -/
def formatClock (t : Int) : String :=
  let s := secsOfDay t
  pad2 (s / 3600) ++ (":" ++ (pad2 (s % 3600 / 60) ++ (":" ++ pad2 (s % 60))))

/-- The Go date layout 2006-01-02 applied to a timestamp already shifted
into the display zone. -/
def formatDate (t : Int) : String :=
  let c := civilFromDays (daysFromEpoch t)
  let y := c.1
  (if y < 0 then "-" ++ padLeft0 (toString (-y).toNat) 4 else padLeft0 (toString y.toNat) 4)
    ++ ("-" ++ (pad2 c.2.1 ++ ("-" ++ pad2 c.2.2)))

/-- The lines printed unconditionally by weatherData.print (src/main.go
lines 264-293) before the conditional Wind Gust line, given the resolved
icon symbol.  time.FixedZone(name, offset) shifts each displayed timestamp
by the truncated offset and shows the zone name verbatim. -/
def preLines (w : weatherData) (emo : String) : List String :=
  [ (""),
    ("Location: ") ++ (w.timezone ++ ((" (Lat: ") ++ (formatFixed 4 w.lat ++ ((", Lon: ") ++ (formatFixed 4 w.lon ++ (")")))))),
    ("Timezone Offset: ") ++ (toString (ratTrunc w.timezoneOffset) ++ (" seconds")),
    (""),
    emo ++ ("  Current Weather: "),
    ("Time:                ") ++ (formatDate (w.current.dt + ratTrunc w.timezoneOffset) ++ ((" ") ++ (formatClock (w.current.dt + ratTrunc w.timezoneOffset) ++ ((" ") ++ w.timezone)))),
    ("Sunrise:             ") ++ (formatClock (w.current.sunrise + ratTrunc w.timezoneOffset) ++ ((" ") ++ w.timezone)),
    ("Sunset:              ") ++ (formatClock (w.current.sunset + ratTrunc w.timezoneOffset) ++ ((" ") ++ w.timezone)),
    ("Temperature:         ") ++ (formatFixed 2 w.current.temp ++ ("°C")),
    ("Feels Like:          ") ++ (formatFixed 2 w.current.feelsLike ++ ("°C")),
    ("Pressure:            ") ++ (toString w.current.pressure ++ (" hPa")),
    ("Humidity:            ") ++ (toString w.current.humidity ++ ("%")),
    ("Dew Point:           ") ++ (formatFixed 2 w.current.dewPoint ++ ("°C")),
    ("UV Index:            ") ++ formatFixed 2 w.current.uvi,
    ("Clouds:              ") ++ (toString w.current.clouds ++ ("%")),
    ("Visibility:          ") ++ (toString w.current.visibility ++ (" m")),
    ("Wind Speed:          ") ++ (formatFixed 2 w.current.windSpeed ++ (" m/s")),
    ("Wind Degrees:        ") ++ (toString w.current.windDeg ++ ("°")) ]

/-- The conditional Wind Gust line: printed exactly when WindGust > 0
(src/main.go lines 294-296). -/
def gustLines (g : Rat) : List String :=
  if 0 < g then [("Wind Gust:           ") ++ (formatFixed 2 g ++ (" m/s"))] else []

/-- weatherData.print as a pure function from the snapshot to the printed
lines; Go indexes current.Weather[0], so an empty weather list (a runtime
panic in Go) yields none. -/
def wprint (w : weatherData) : Option (List String) :=
  (w.current.weather.head?).map (fun c0 =>
    preLines w (iconLookup c0.icon) ++
      (gustLines w.current.windGust ++ [("-----------------------")]))

/-- Remove every Wind Gust line from a list of printed lines. -/
def stripGust (l : List String) : List String :=
  List.filter (fun s => ! strHasPfx ("Wind Gust") s) l

/-- Result of the selection step in main (src/main.go lines 350-356). -/
inductive selectResult where
  | ok (c : coordinate)
  | invalidSelection
deriving DecidableEq

/-- The selection/validation step of main: chosen is the strconv.Atoi
result (none when the text is not a parseable integer); the Go guard is
err != nil || chosenIndex > len(lists) || chosenIndex <= 0, and on success
Lists[chosenIndex-1].Coord is returned. -/
def select (r : locationSearchResult) (chosen : Option Int) : selectResult :=
  match chosen with
  | none => selectResult.invalidSelection
  | some i =>
    if h : (r.lists.length : Int) < i ∨ i ≤ 0 then selectResult.invalidSelection
    else selectResult.ok (r.lists.get ⟨(i - 1).toNat, by omega⟩).coord

/-- The failure sites at which the program calls os.Exit. -/
inductive failureEvent where
  | reqBuild
  | netSend
  | bodyRead
  | decodeSearch
  | decodeWeather
  | decodeIP
  | stdinRead
  | invalidSel
deriving DecidableEq

/-- The failure classes named by the specification's exit-behaviour
contract. -/
inductive failureKind where
  | requestConstruction
  | networkSend
  | bodyRead
  | jsonDecode
  | invalidSelection
  | stdinRead
deriving DecidableEq

/-- The exit code the program passes to os.Exit at each failure site
(src/main.go lines 186, 194, 204, 225, 258, 311, 345, 353). -/
def exitCode : failureEvent → Nat
  | failureEvent.reqBuild => 1
  | failureEvent.netSend => 2
  | failureEvent.bodyRead => 3
  | failureEvent.decodeSearch => 4
  | failureEvent.decodeWeather => 4
  | failureEvent.decodeIP => 10
  | failureEvent.stdinRead => 7
  | failureEvent.invalidSel => 8

/-- The failure class each failure site belongs to. -/
def kindOf : failureEvent → failureKind
  | failureEvent.reqBuild => failureKind.requestConstruction
  | failureEvent.netSend => failureKind.networkSend
  | failureEvent.bodyRead => failureKind.bodyRead
  | failureEvent.decodeSearch => failureKind.jsonDecode
  | failureEvent.decodeWeather => failureKind.jsonDecode
  | failureEvent.decodeIP => failureKind.jsonDecode
  | failureEvent.stdinRead => failureKind.stdinRead
  | failureEvent.invalidSel => failureKind.invalidSelection

/-- The response seen by fetch: an HTTP status code and the outcome of
reading the body stream. -/
structure httpResponse where
  status : Nat
  body : Except Unit String

/-- Outcome of fetch: the body bytes, or process termination. -/
inductive fetchResult where
  | success (body : String)
  | exit (code : Nat)
deriving DecidableEq

/-- The fetch function (src/main.go lines 174-208) over its three fallible
steps: request construction, sending (none = transport error), and body
read.  No status-code inspection occurs. -/
def fetch (reqBuildOk : Bool) (send : Option httpResponse) : fetchResult :=
  if reqBuildOk then
    match send with
    | none => fetchResult.exit (exitCode failureEvent.netSend)
    | some res =>
      match res.body with
      | Except.error _ => fetchResult.exit (exitCode failureEvent.bodyRead)
      | Except.ok b => fetchResult.success b
  else fetchResult.exit (exitCode failureEvent.reqBuild)

/-- fetchUserCoordinates (src/main.go lines 301-315) over the decode
outcome of the fetched body: the pair is (lines printed, result).  On
decode failure it prints a diagnostic and the decode error and exits 10;
the raw body is not printed. -/
def fetchUserCoordinates (body : String) (decoded : Option IPInfo) (errMsg : String) :
    List String × Except Nat coordinate :=
  match decoded with
  | some info =>
    ([("[@] Fetching your coordinates")], Except.ok { lat := info.latitude, lon := info.longitude })
  | none =>
    ([("[@] Fetching your coordinates"), ("Failed to parse IP info"), errMsg],
      Except.error (exitCode failureEvent.decodeIP))

/-- The flag values main reads (defaults: search empty, lat 0, lon 0,
auto false). -/
structure flags where
  search : String
  lat : Rat
  lon : Rat
  auto : Bool
deriving DecidableEq

/-- The branch main takes after flag parsing. -/
inductive mainAction where
  | autoWeather
  | searchFlow (q : String)
  | directWeather (c : coordinate)
  | usage
deriving DecidableEq

/-- The dispatch of main (src/main.go lines 331-362): auto, then search,
then the guard lat != 0.0 AND lon != 0.0, else usage help. -/
def mainDispatch (f : flags) : mainAction :=
  if f.auto then mainAction.autoWeather
  else if f.search ≠ ("") then mainAction.searchFlow f.search
  else if f.lat ≠ 0 ∧ f.lon ≠ 0 then mainAction.directWeather { lat := f.lat, lon := f.lon }
  else mainAction.usage

/-- Sample weather condition with the clear-sky-day icon. -/
def sampleCond : weatherCondition :=
  { id := 800, main := ("Clear"), description := ("clear sky"), icon := ("01d") }

/-- Second sample weather condition (night rain icon). -/
def sampleCondB : weatherCondition :=
  { id := 500, main := ("Rain"), description := ("light rain"), icon := ("10n") }

/-- Sample current weather: dt 1700000000, wind gust 3.5. -/
def sampleCurrent : currentWeather :=
  { dt := 1700000000, sunrise := 1699964000, sunset := 1700003000,
    temp := 18, feelsLike := 17, pressure := 1013, humidity := 60, dewPoint := 10,
    uvi := 5, clouds := 20, visibility := 10000, windSpeed := 3, windDeg := 180,
    windGust := 3.5, weather := [sampleCond] }

/-- Sample snapshot: timezone offset 3600 seconds. -/
def sampleW : weatherData :=
  { lat := 37, lon := -122, timezone := ("Asia/Kathmandu"), timezoneOffset := 3600,
    current := sampleCurrent, minutely := [], hourly := [], daily := [] }

/-- Sample snapshot with a negative wind gust. -/
def sampleWNeg : weatherData :=
  { sampleW with current := { sampleCurrent with windGust := -2 } }

/-- First sample search candidate. -/
def sampleLocA : location :=
  { coord := { lat := 48, lon := 2 }, name := ("Paris"), fullName := ("Paris, France"),
    compactName := ("Paris, FR"), country := ("FR") }

/-- Second sample search candidate. -/
def sampleLocB : location :=
  { coord := { lat := 33, lon := -95 }, name := ("Paris"), fullName := ("Paris, Texas"),
    compactName := ("Paris, US"), country := ("US") }

/-- Sample search result with two candidates. -/
def sampleResult : locationSearchResult :=
  { message := ("accurate"), cod := ("200"), count := 2, lists := [sampleLocA, sampleLocB] }

lemma strHasPfx_append_false (p a t : String)
    (hlen : p.data.length ≤ a.data.length) (h : strHasPfx p a = false) :
    strHasPfx p (a ++ t) = false := by
  unfold strHasPfx at h ⊢
  by_contra hc
  rw [Bool.not_eq_false, List.isPrefixOf_iff_prefix] at hc
  have hd : (a ++ t).data = a.data ++ t.data := rfl
  rw [hd] at hc
  have h2 : p.data <+: a.data :=
    List.prefix_of_prefix_length_le hc (List.prefix_append a.data t.data) hlen
  rw [← List.isPrefixOf_iff_prefix] at h2
  rw [h2] at h
  exact Bool.noConfusion h

lemma strHasPfx_append_true (p a t : String) (h : strHasPfx p a = true) :
    strHasPfx p (a ++ t) = true := by
  unfold strHasPfx at h ⊢
  rw [List.isPrefixOf_iff_prefix] at h ⊢
  have hd : (a ++ t).data = a.data ++ t.data := rfl
  rw [hd]
  exact h.trans (List.prefix_append a.data t.data)

lemma lookup_getD_mem (l : List (String × String)) (s : String) :
    (List.lookup s l).getD ("") ∈ (("") :: l.map Prod.snd) := by
  induction l with
  | nil => simp [List.lookup]
  | cons p tl ih =>
    obtain ⟨k, v⟩ := p
    cases hb : s == k
    · have heq : List.lookup s ((k, v) :: tl) = List.lookup s tl := by
        simp [List.lookup, hb]
      rw [heq]
      simp only [List.map_cons, List.mem_cons] at ih ⊢
      tauto
    · have heq : List.lookup s ((k, v) :: tl) = some v := by
        simp [List.lookup, hb]
      rw [heq]
      simp

lemma iconLookup_cases (s : String) :
    iconLookup s ∈ (("") :: weatherIconEmojis.map Prod.snd) :=
  lookup_getD_mem weatherIconEmojis s

lemma preLines_no_gust (w : weatherData) (emo : String)
    (hemo : emo ∈ (("") :: weatherIconEmojis.map Prod.snd)) :
    ∀ l ∈ preLines w emo, strHasPfx ("Wind Gust") l = false := by
  have hicon : ∀ e ∈ (("") :: weatherIconEmojis.map Prod.snd),
      strHasPfx ("Wind Gust") (e ++ ("  Current Weather: ")) = false := by decide
  intro l hl
  simp only [preLines, List.mem_cons, List.not_mem_nil, or_false] at hl
  rcases hl with rfl | rfl | rfl | rfl | rfl | rfl | rfl | rfl | rfl | rfl | rfl | rfl | rfl | rfl | rfl | rfl | rfl | rfl
  all_goals first
    | exact hicon emo hemo
    | exact strHasPfx_append_false _ _ _ (by decide) (by decide)
    | decide

lemma wprint_eq (w : weatherData) (c0 : weatherCondition) (rest : List weatherCondition)
    (hw : w.current.weather = c0 :: rest) :
    wprint w = some (preLines w (iconLookup c0.icon) ++
      (gustLines w.current.windGust ++ [("-----------------------")])) := by
  unfold wprint
  rw [hw]
  rfl

lemma stripGust_append (a b : List String) :
    stripGust (a ++ b) = stripGust a ++ stripGust b := by
  simp [stripGust, List.filter_append]

lemma stripGust_preLines (w : weatherData) (emo : String)
    (hemo : emo ∈ (("") :: weatherIconEmojis.map Prod.snd)) :
    stripGust (preLines w emo) = preLines w emo := by
  unfold stripGust
  rw [List.filter_eq_self]
  intro a ha
  simp [preLines_no_gust w emo hemo a ha]

lemma stripGust_gustLines (g : Rat) : stripGust (gustLines g) = [] := by
  unfold stripGust gustLines
  split
  · simp [strHasPfx_append_true ("Wind Gust") ("Wind Gust:           ")
      (formatFixed 2 g ++ (" m/s")) (by decide)]
  · rfl

lemma rat35 : (3.5 : Rat) = Rat.mk' 7 2 (by decide) (by decide) := by
  rw [Rat.mk'_eq_divInt, Rat.divInt_eq_div]
  norm_num

lemma select_none (r : locationSearchResult) :
    select r none = selectResult.invalidSelection := rfl

lemma select_some (r : locationSearchResult) (i : Int) :
    select r (some i) =
      if h : (r.lists.length : Int) < i ∨ i ≤ 0 then selectResult.invalidSelection
      else selectResult.ok (r.lists.get ⟨(i - 1).toNat, by omega⟩).coord := rfl

lemma mainDispatch_latlon (lat lon : Rat) :
    mainDispatch { search := (""), lat := lat, lon := lon, auto := false } =
      if lat ≠ 0 ∧ lon ≠ 0 then mainAction.directWeather { lat := lat, lon := lon }
      else mainAction.usage := rfl

/-- C1: select succeeds iff the 1-based index i satisfies 1 <= i <= N (N the
number of candidates), returning candidates[i-1].coordinate; a non-numeric
index (none) or an i outside that range yields invalidSelection, whose process
exit code is 8. -/
theorem select_spec (r : locationSearchResult) (oi : Option Int) :
    (oi = none → select r oi = selectResult.invalidSelection) ∧
    (∀ i : Int, oi = some i →
      ((∃ c, select r oi = selectResult.ok c) ↔ 1 ≤ i ∧ i ≤ (r.lists.length : Int))) ∧
    (∀ i : Int, 1 ≤ i → i ≤ (r.lists.length : Int) →
      ∀ hx : (i - 1).toNat < r.lists.length,
        select r (some i) = selectResult.ok (r.lists.get ⟨(i - 1).toNat, hx⟩).coord) ∧
    (∀ i : Int, ((r.lists.length : Int) < i ∨ i ≤ 0) →
      select r (some i) = selectResult.invalidSelection) ∧
    exitCode failureEvent.invalidSel = 8 := by
  refine ⟨?_, ?_, ?_, ?_, rfl⟩
  · rintro rfl
    rfl
  · rintro i rfl
    constructor
    · rintro ⟨c, hc⟩
      rw [select_some] at hc
      by_cases hcond : (r.lists.length : Int) < i ∨ i ≤ 0
      · rw [dif_pos hcond] at hc
        exact selectResult.noConfusion hc
      · omega
    · intro hbound
      rw [select_some, dif_neg (by omega)]
      exact ⟨_, rfl⟩
  · intro i h1 h2 hx
    rw [select_some, dif_neg (by omega)]
  · intro i hcond
    rw [select_some, dif_pos hcond]

/-- C1 witness: with two candidates, index 2 is in range and selects the second
candidate's coordinate. -/
theorem select_spec_witness :
    (1 : Int) ≤ 2 ∧ (2 : Int) ≤ (sampleResult.lists.length : Int) ∧
    select sampleResult (some 2) = selectResult.ok sampleLocB.coord := by
  refine ⟨by decide, by decide, ?_⟩
  have h := (select_spec sampleResult (some 2)).2.2.1 2 (by decide) (by decide) (by decide)
  exact h.trans (by decide)

/-- C2 counterexample: the location-search decode site and the IP-info decode
site belong to the same failure class (JSON decode) yet exit with different
codes (4 and 10), so that class does not map to a single exit code. -/
theorem decode_two_codes_counterexample :
    kindOf failureEvent.decodeSearch = kindOf failureEvent.decodeIP ∧
    exitCode failureEvent.decodeSearch ≠ exitCode failureEvent.decodeIP := by decide

/-- C2 (amended): every failure site terminates with a fixed exit code and no
two sites in different failure classes share a code; the JSON-decode class,
however, spans two codes: 4 (location-search and weather decode) and 10
(IP-info decode). -/
theorem exitCode_kind_distinct (e1 e2 : failureEvent) (h : kindOf e1 ≠ kindOf e2) :
    exitCode e1 ≠ exitCode e2 := by
  cases e1 <;> cases e2 <;> (revert h ; decide)

/-- C2 witness: the request-construction and invalid-selection sites are in
different classes and exit with different codes. -/
theorem exitCode_kind_distinct_witness :
    kindOf failureEvent.reqBuild ≠ kindOf failureEvent.invalidSel ∧
    exitCode failureEvent.reqBuild ≠ exitCode failureEvent.invalidSel :=
  ⟨by decide, exitCode_kind_distinct failureEvent.reqBuild failureEvent.invalidSel (by decide)⟩

/-- C3 counterexample: the coordinate (0, 5) differs from (0, 0), yet under the
lat/lon intent main falls through to usage help instead of proceeding to the
weather fetch with it. -/
theorem latlon_zero_axis_counterexample :
    mainDispatch { search := (""), lat := 0, lon := 5, auto := false } = mainAction.usage ∧
    mainDispatch { search := (""), lat := 0, lon := 5, auto := false } ≠
      mainAction.directWeather { lat := 0, lon := 5 } ∧
    ({ lat := 0, lon := 5 } : coordinate) ≠ { lat := 0, lon := 0 } := by decide

/-- C3 (amended): under the lat/lon intent the caller-supplied coordinate
proceeds unchanged to the weather fetch iff both axes are nonzero; whenever
either axis is exactly 0 (including the (0,0) not-provided ambiguity) main
falls through to usage help. -/
theorem latlon_dispatch (lat lon : Rat) :
    (mainDispatch { search := (""), lat := lat, lon := lon, auto := false } =
        mainAction.directWeather { lat := lat, lon := lon } ↔ (lat ≠ 0 ∧ lon ≠ 0)) ∧
    ((lat = 0 ∨ lon = 0) →
      mainDispatch { search := (""), lat := lat, lon := lon, auto := false } =
        mainAction.usage) := by
  rw [mainDispatch_latlon]
  constructor
  · constructor
    · intro h
      by_contra hn
      rw [if_neg hn] at h
      exact mainAction.noConfusion h
    · intro h
      rw [if_pos h]
  · intro h
    have hn : ¬(lat ≠ 0 ∧ lon ≠ 0) := by tauto
    rw [if_neg hn]

/-- C3 witness: with lat = 0 and lon = 5 the dispatch is usage help. -/
theorem latlon_dispatch_witness :
    mainDispatch { search := (""), lat := 0, lon := 5, auto := false } = mainAction.usage :=
  (latlon_dispatch 0 5).2 (Or.inl rfl)

/-- C4: rendering with wind gust exactly 0 emits no Wind Gust line; with wind
gust 3.5 it emits a Wind Gust line containing 3.50 m/s; the remaining lines are
the same fixed-order list regardless of the gust value. -/
theorem gust_rendering (w : weatherData) (c0 : weatherCondition) (rest : List weatherCondition)
    (hw : w.current.weather = c0 :: rest) :
    (w.current.windGust = 0 →
        ∃ out, wprint w = some out ∧ ∀ l ∈ out, strHasPfx ("Wind Gust") l = false) ∧
    (w.current.windGust = 3.5 →
        ∃ out, wprint w = some out ∧ ("Wind Gust:           3.50 m/s") ∈ out) ∧
    (∀ g : Rat,
        Option.map stripGust (wprint { w with current := { w.current with windGust := g } }) =
          Option.map stripGust (wprint w)) := by
  have hw_eq := wprint_eq w c0 rest hw
  refine ⟨?_, ?_, ?_⟩
  · intro hg
    refine ⟨_, hw_eq, ?_⟩
    intro l hl
    rw [hg] at hl
    have h0 : gustLines (0 : Rat) = [] := by decide
    rw [h0, List.nil_append] at hl
    rcases List.mem_append.mp hl with h | h
    · exact preLines_no_gust w _ (iconLookup_cases c0.icon) l h
    · simp only [List.mem_singleton] at h
      subst h
      decide
  · intro hg
    refine ⟨_, hw_eq, ?_⟩
    rw [hg]
    have h1 : gustLines (3.5 : Rat) = [("Wind Gust:           3.50 m/s")] := by
      rw [rat35]
      decide
    rw [h1]
    exact List.mem_append.mpr (Or.inr (List.mem_append.mpr (Or.inl (List.mem_singleton.mpr rfl))))
  · intro g
    have hw2 : ({ w with current := { w.current with windGust := g } } : weatherData).current.weather
        = c0 :: rest := hw
    rw [wprint_eq _ c0 rest hw2, hw_eq]
    have hpre : preLines { w with current := { w.current with windGust := g } }
        (iconLookup c0.icon) = preLines w (iconLookup c0.icon) := rfl
    simp only [Option.map_some']
    rw [hpre]
    simp only [stripGust_append]
    rw [stripGust_preLines w _ (iconLookup_cases c0.icon), stripGust_gustLines,
      stripGust_gustLines]

/-- C4 witness: the sample snapshot has wind gust 3.5 and its rendering contains
the Wind Gust line with 3.50 m/s. -/
theorem gust_rendering_witness :
    sampleW.current.weather = sampleCond :: [] ∧
    (∃ out, wprint sampleW = some out ∧ ("Wind Gust:           3.50 m/s") ∈ out) :=
  ⟨rfl, (gust_rendering sampleW sampleCond [] rfl).2.1 rfl⟩

/-- C5 counterexample: the icon table has 18 entries (with pairwise-distinct
keys), not 19 as claimed. -/
theorem icon_table_size_counterexample :
    weatherIconEmojis.length = 18 ∧ (weatherIconEmojis.map Prod.fst).Nodup ∧
    ¬ weatherIconEmojis.length = 19 := by decide

/-- C5 (amended): the renderer's icon lookup is a fixed 18-entry
icon-code-to-symbol table in which 01d maps to the clear-sky-day symbol, and
any code not in the table renders as the empty string, never an error. -/
theorem iconLookup_spec :
    iconLookup ("01d") = ("☀️") ∧
    iconLookup ("99z") = ("") ∧
    weatherIconEmojis.length = 18 ∧
    (∀ code : String, List.lookup code weatherIconEmojis = none → iconLookup code = ("")) := by
  refine ⟨by decide, by decide, by decide, ?_⟩
  intro code h
  unfold iconLookup
  rw [h]
  rfl

/-- C5 witness: the unrecognized code 99z is absent from the table and renders
as the empty string. -/
theorem iconLookup_spec_witness :
    List.lookup ("99z") weatherIconEmojis = none ∧ iconLookup ("99z") = ("") :=
  ⟨by decide, iconLookup_spec.2.2.2 ("99z") (by decide)⟩

/-- C6: the renderer displays current.dt, sunrise and sunset shifted by the
truncated timezone_offset_seconds, with timezone_name as a verbatim label; at
dt = 1700000000 and offset 3600 the displayed wall-clock time 23:13:20 is the
timestamp's UTC wall-clock 22:13:20 shifted by exactly one hour, with no
dependence on any host state. -/
theorem render_timezone (w : weatherData) (c0 : weatherCondition) (rest : List weatherCondition)
    (hw : w.current.weather = c0 :: rest) :
    ∃ out, wprint w = some out ∧
      ("Time:                ") ++ (formatDate (w.current.dt + ratTrunc w.timezoneOffset) ++ ((" ") ++ (formatClock (w.current.dt + ratTrunc w.timezoneOffset) ++ ((" ") ++ w.timezone)))) ∈ out ∧
      ("Sunrise:             ") ++ (formatClock (w.current.sunrise + ratTrunc w.timezoneOffset) ++ ((" ") ++ w.timezone)) ∈ out ∧
      ("Sunset:              ") ++ (formatClock (w.current.sunset + ratTrunc w.timezoneOffset) ++ ((" ") ++ w.timezone)) ∈ out ∧
      (w.current.dt = 1700000000 → w.timezoneOffset = 3600 →
        ratTrunc w.timezoneOffset = 3600 ∧
        formatDate (w.current.dt + ratTrunc w.timezoneOffset) = ("2023-11-14") ∧
        formatClock (w.current.dt + ratTrunc w.timezoneOffset) = ("23:13:20") ∧
        formatClock w.current.dt = ("22:13:20")) := by
  refine ⟨_, wprint_eq w c0 rest hw, ?_, ?_, ?_, ?_⟩
  · exact List.mem_append.mpr (Or.inl (by simp [preLines]))
  · exact List.mem_append.mpr (Or.inl (by simp [preLines]))
  · exact List.mem_append.mpr (Or.inl (by simp [preLines]))
  · intro h1 h2
    rw [h1, h2]
    exact ⟨by decide, by decide, by decide, by decide⟩

/-- C6 witness: the sample snapshot (dt 1700000000, offset 3600) instantiates
the timezone-rendering theorem. -/
theorem render_timezone_witness :
    sampleW.current.weather = sampleCond :: [] ∧
    (∃ out, wprint sampleW = some out ∧
      ("Time:                ") ++ (formatDate (sampleW.current.dt + ratTrunc sampleW.timezoneOffset) ++ ((" ") ++ (formatClock (sampleW.current.dt + ratTrunc sampleW.timezoneOffset) ++ ((" ") ++ sampleW.timezone)))) ∈ out ∧
      ("Sunrise:             ") ++ (formatClock (sampleW.current.sunrise + ratTrunc sampleW.timezoneOffset) ++ ((" ") ++ sampleW.timezone)) ∈ out ∧
      ("Sunset:              ") ++ (formatClock (sampleW.current.sunset + ratTrunc sampleW.timezoneOffset) ++ ((" ") ++ sampleW.timezone)) ∈ out ∧
      (sampleW.current.dt = 1700000000 → sampleW.timezoneOffset = 3600 →
        ratTrunc sampleW.timezoneOffset = 3600 ∧
        formatDate (sampleW.current.dt + ratTrunc sampleW.timezoneOffset) = ("2023-11-14") ∧
        formatClock (sampleW.current.dt + ratTrunc sampleW.timezoneOffset) = ("23:13:20") ∧
        formatClock sampleW.current.dt = ("22:13:20"))) :=
  ⟨rfl, render_timezone sampleW sampleCond [] rfl⟩

/-- C7 counterexample: on IP-info decode failure the process does exit with the
distinct code 10, but the raw response body is not among the printed lines. -/
theorem ipDecode_no_body_dump_counterexample :
    (fetchUserCoordinates ("RAWBODY123") none ("unexpected end of JSON input")).2 =
      Except.error 10 ∧
    ("RAWBODY123") ∉ (fetchUserCoordinates ("RAWBODY123") none ("unexpected end of JSON input")).1 :=
  ⟨rfl, by decide⟩

/-- C7 (amended): on IP-info decode failure the process fails fatally with exit
code 10 — distinct from every other failure site's code — after printing a
diagnostic message and the decode error, but it does not dump the raw response
body. -/
theorem ipDecode_failure (body errMsg : String) :
    (fetchUserCoordinates body none errMsg).2 = Except.error 10 ∧
    (fetchUserCoordinates body none errMsg).1 =
      [("[@] Fetching your coordinates"), ("Failed to parse IP info"), errMsg] ∧
    (∀ e : failureEvent, e ≠ failureEvent.decodeIP → exitCode e ≠ 10) := by
  refine ⟨rfl, rfl, ?_⟩
  intro e
  cases e <;> decide

/-- C7 witness: concrete instantiation with a raw body and an error message;
the request-construction site has a different code than 10. -/
theorem ipDecode_failure_witness :
    (fetchUserCoordinates ("RAW") none ("ERR")).2 = Except.error 10 ∧
    exitCode failureEvent.reqBuild ≠ 10 :=
  ⟨(ipDecode_failure ("RAW") ("ERR")).1,
    (ipDecode_failure ("RAW") ("ERR")).2.2 failureEvent.reqBuild (by decide)⟩

/-- C8: a successful fetch returns the full body unchanged for every HTTP
status code (no status inspection), and the three failure stages — request
construction, network send, body read — terminate with the distinct exit codes
1, 2 and 3. -/
theorem fetch_spec :
    (∀ (status status2 : Nat) (b : String),
        fetch true (some { status := status, body := Except.ok b }) = fetchResult.success b ∧
        fetch true (some { status := status, body := Except.ok b }) =
          fetch true (some { status := status2, body := Except.ok b })) ∧
    (∀ send : Option httpResponse, fetch false send = fetchResult.exit 1) ∧
    fetch true none = fetchResult.exit 2 ∧
    (∀ status : Nat, fetch true (some { status := status, body := Except.error () }) =
      fetchResult.exit 3) ∧
    exitCode failureEvent.reqBuild = 1 ∧ exitCode failureEvent.netSend = 2 ∧
    exitCode failureEvent.bodyRead = 3 :=
  ⟨fun _ _ b => ⟨rfl, rfl⟩, fun _ => rfl, rfl, fun _ => rfl, rfl, rfl, rfl⟩

/-- C9: rendering is a pure function of the snapshot that does not depend on
the minutely/hourly/daily forecast sequences nor on any weather condition
beyond the first element: replacing all of them leaves the output identical. -/
theorem render_pure_frame (w : weatherData) (c0 : weatherCondition)
    (rest rest2 : List weatherCondition) (hw : w.current.weather = c0 :: rest)
    (m : List minutelyForecast) (hh : List hourlyForecast) (d : List dailyForecast) :
    wprint { w with
             minutely := m, hourly := hh, daily := d,
             current := { w.current with weather := c0 :: rest2 } } = wprint w := by
  unfold wprint
  rw [hw]
  rfl

/-- C9 witness: replacing the forecasts and the weather tail of the sample
snapshot leaves the rendering unchanged. -/
theorem render_pure_frame_witness :
    sampleW.current.weather = sampleCond :: [] ∧
    wprint { sampleW with
             minutely := [{ dt := 5, precipitation := 1 }], hourly := [], daily := [],
             current := { sampleW.current with weather := sampleCond :: [sampleCondB] } } =
      wprint sampleW :=
  ⟨rfl, render_pure_frame sampleW sampleCond [] [sampleCondB] rfl
    [{ dt := 5, precipitation := 1 }] [] []⟩

/-- C10: the rendering contains a Wind Gust line exactly when the wind gust is
strictly positive; every non-positive gust, including negative values, renders
with no Wind Gust line. -/
theorem gust_line_iff (w : weatherData) (c0 : weatherCondition) (rest : List weatherCondition)
    (hw : w.current.weather = c0 :: rest) :
    ∃ out, wprint w = some out ∧
      ((∃ l ∈ out, strHasPfx ("Wind Gust") l = true) ↔ 0 < w.current.windGust) := by
  refine ⟨_, wprint_eq w c0 rest hw, ?_⟩
  constructor
  · rintro ⟨l, hl, hpfx⟩
    by_contra hng
    have h0 : gustLines w.current.windGust = [] := by
      unfold gustLines
      rw [if_neg hng]
    rw [h0, List.nil_append] at hl
    rcases List.mem_append.mp hl with h | h
    · rw [preLines_no_gust w _ (iconLookup_cases c0.icon) l h] at hpfx
      exact Bool.noConfusion hpfx
    · simp only [List.mem_singleton] at h
      subst h
      exact absurd hpfx (by decide)
  · intro hg
    refine ⟨("Wind Gust:           ") ++ (formatFixed 2 w.current.windGust ++ (" m/s")), ?_, ?_⟩
    · have h1 : gustLines w.current.windGust =
          [("Wind Gust:           ") ++ (formatFixed 2 w.current.windGust ++ (" m/s"))] := by
        unfold gustLines
        rw [if_pos hg]
      rw [h1]
      exact List.mem_append.mpr (Or.inr (List.mem_append.mpr (Or.inl (List.mem_singleton.mpr rfl))))
    · exact strHasPfx_append_true _ _ _ (by decide)

/-- C10 witness: the sample snapshot with wind gust -2 instantiates the
iff-characterization of the Wind Gust line. -/
theorem gust_line_iff_witness :
    sampleWNeg.current.weather = sampleCond :: [] ∧
    (∃ out, wprint sampleWNeg = some out ∧
      ((∃ l ∈ out, strHasPfx ("Wind Gust") l = true) ↔ 0 < sampleWNeg.current.windGust)) :=
  ⟨rfl, gust_line_iff sampleWNeg sampleCond [] rfl⟩
